import Mathlib

/-
Verification of the products CRUD service (src/src/app.go) against its
specification.  The Go handlers are embedded shallowly: the MongoDB
collection is a list of BSON documents, the mgo driver calls become pure
functions returning `Except MgoErr`, and each HTTP handler becomes a pure
function from its inputs (path parameter, decoded-or-raw body, store) to a
`Response` and the new store.  Byte strings are coded as Lean `String`s
(one character per byte; all identifiers and messages in scope are ASCII).
-/

deriving instance DecidableEq for Except

namespace RestApi

/-- Storage-layer error kinds surfaced by the mgo driver to the handlers:
`notFound` is mgo.ErrNotFound (returned by One/Update/Remove when no
document matches), `dup` is a unique-index violation (what mgo.IsDup
recognises), and `queryError` stands for any other driver or transport
error. -/
inductive MgoErr where
  | notFound
  | dup
  | queryError
deriving DecidableEq, Repr

/-- A BSON value as used by this service.  MongoDB distinguishes the
string type from the ObjectId type, and equality in a query selector never
equates values of different BSON types; an ObjectId is carried as its raw
12-byte string. -/
inductive BVal where
  | str (s : String)
  | oid (s : String)
deriving DecidableEq, Repr

/-- A BSON document: an ordered list of named fields. -/
abbrev BDoc := List (String × BVal)

/-- The Product entity (app.go lines 45-50): `id` is the bson.ObjectId —
a Go string holding the raw identifier bytes, "" when unset and omitted
from the stored document (tag `bson:"_id,omitempty"`); `name` and `price`
are plain strings. -/
structure Product where
  id : String
  name : String
  price : String
deriving DecidableEq, Repr

/-- The zero value `var product Product`. -/
def Product.zero : Product := { id := "", name := "", price := "" }

/-- An HTTP response as the handlers produce it: status code, the
Content-Type header if the handler set one, the Location header if the
handler set one, and the body text. -/
structure Response where
  status : Nat
  contentType : Option String
  location : Option String
  body : String
deriving DecidableEq, Repr

/-- Lower-case hexadecimal digit. -/
def hexDigit (n : Nat) : Char :=
  if n < 10 then Char.ofNat (48 + n) else Char.ofNat (87 + n)

/-- Two-digit lower-case hexadecimal rendering of a byte. -/
def hexByte (n : Nat) : String :=
  String.mk [hexDigit (n / 16 % 16), hexDigit (n % 16)]

/-- Go `fmt.Sprintf("%x", s)`: each byte of the string as two lower-case
hex digits (bytes coded as characters). -/
def hexEncode (s : String) : String :=
  String.join (s.toList.map (fun c => hexByte c.toNat))

/-- Value of one hexadecimal digit, as accepted by Go `hex.Decode`
(both letter cases). -/
def hexDigitVal (c : Char) : Option Nat :=
  if 48 ≤ c.toNat ∧ c.toNat ≤ 57 then some (c.toNat - 48)
  else if 97 ≤ c.toNat ∧ c.toNat ≤ 102 then some (c.toNat - 87)
  else if 65 ≤ c.toNat ∧ c.toNat ≤ 70 then some (c.toNat - 55)
  else none

/-- Go `hex.Decode`: consume pairs of hex digits into bytes; fails on a
non-digit or an odd-length input. -/
def hexDecodeList : List Char → Option (List Char)
  | [] => some []
  | hi :: lo :: rest =>
    match hexDigitVal hi, hexDigitVal lo, hexDecodeList rest with
    | some h, some l, some cs => some (Char.ofNat (16 * h + l) :: cs)
    | _, _, _ => none
  | [_] => none

/-- The hex branch of bson.ObjectId.UnmarshalJSON: a quoted JSON string is
a valid ObjectId exactly when it has 24 characters that all decode as hex
digits; the result is the 12 raw bytes. -/
def objectIdFromJSONHex (s : String) : Option String :=
  if s.length = 24 then (hexDecodeList s.toList).map String.mk else none

/-- Escaping of one character under Go `fmt` `%q` (app.go line 31).  The
messages this service ever passes are printable ASCII without quotes or
backslashes, for which `%q` only adds the surrounding quotes; the common
escapes are still modelled. -/
def goQuoteChar (c : Char) : String :=
  if c = '"' then "\\\""
  else if c = '\\' then "\\\\"
  else if c = '\n' then "\\n"
  else if c = '\r' then "\\r"
  else if c = '\t' then "\\t"
  else String.singleton c

/-- Go `%q` of a string: double quotes around the escaped characters. -/
def goQuote (s : String) : String :=
  "\"" ++ String.join (s.toList.map goQuoteChar) ++ "\""

/-- Escaping of one character under Go `encoding/json` (with the default
HTML escaping used by Marshal/MarshalIndent). -/
def jsonEscapeChar (c : Char) : String :=
  if c = '"' then "\\\""
  else if c = '\\' then "\\\\"
  else if c = '\n' then "\\n"
  else if c = '\r' then "\\r"
  else if c = '\t' then "\\t"
  else if c = '<' then "\\u003c"
  else if c = '>' then "\\u003e"
  else if c = '&' then "\\u0026"
  else if c.toNat < 32 then "\\u00" ++ hexByte c.toNat
  else String.singleton c

/-- A Go JSON string literal: quotes around the escaped characters. -/
def jsonQuote (s : String) : String :=
  "\"" ++ String.join (s.toList.map jsonEscapeChar) ++ "\""

/-- A parsed JSON value, as far as this service inspects one.  Numbers are
carried as `Int` only as a placeholder: every number reaching a Product
field is a type error regardless of its value, likewise booleans and
arrays. -/
inductive JVal where
  | jstr (s : String)
  | jnum (n : Int)
  | jbool (b : Bool)
  | jnull
  | jobj (fields : List (String × JVal))
  | jarr (elems : List JVal)
deriving Repr

mutual

/-- bson.ObjectId.UnmarshalJSON: "" and null give the empty id; a 24-hex
string gives its 12 bytes; an object is the extended-JSON form and defers
to its "$oid" member (the last one, matching encoding/json's last-wins
rule for duplicate keys); everything else is an error.  (The source
checks the raw 26 bytes of the quoted literal; on the decoded string this
is the 24-character test below.) -/
def objectIdUnmarshal : JVal → Except Unit String
  | .jstr s =>
    if s = "" then .ok ""
    else
      match objectIdFromJSONHex s with
      | some b => .ok b
      | none => .error ()
  | .jnull => .ok ""
  | .jobj o => oidFromFields o
  | _ => .error ()

/-- Select the last "$oid" member of an extended-JSON object and unmarshal
it; no such member is an error. -/
def oidFromFields : List (String × JVal) → Except Unit String
  | [] => .error ()
  | (k, v) :: rest =>
    if k == "$oid" && rest.all (fun kv => !(kv.1 == "$oid")) then
      objectIdUnmarshal v
    else
      oidFromFields rest

end

/-- ASCII lower-casing of one character. -/
def foldChar (c : Char) : Char :=
  if 65 ≤ c.toNat ∧ c.toNat ≤ 90 then Char.ofNat (c.toNat + 32) else c

/-- encoding/json matches object keys to struct fields preferring an exact
match but also accepting a case-insensitive one; modelled at the ASCII
level. -/
def eqFold (a b : String) : Bool :=
  a.toList.map foldChar == b.toList.map foldChar

/-- One step of decoding a JSON object member into the Product being
built, mirroring encoding/json: a key matching `id`/`name`/`price`
(case-insensitively) assigns that field, with a type mismatch recorded as
an error while decoding continues (the decoder saves the first error and
keeps going); `null` leaves a string field untouched; any other key is
skipped silently. -/
def decodeStep (acc : Product × Bool) (kv : String × JVal) : Product × Bool :=
  let p := acc.1
  let bad := acc.2
  if eqFold kv.1 "id" then
    match objectIdUnmarshal kv.2 with
    | .ok i => ({ p with id := i }, bad)
    | .error _ => (p, true)
  else if eqFold kv.1 "name" then
    match kv.2 with
    | .jstr s => ({ p with name := s }, bad)
    | .jnull => (p, bad)
    | _ => (p, true)
  else if eqFold kv.1 "price" then
    match kv.2 with
    | .jstr s => ({ p with price := s }, bad)
    | .jnull => (p, bad)
    | _ => (p, true)
  else (p, bad)

/-- `json.NewDecoder(r.Body).Decode(&product)`: `none` stands for a body
that is not a single well-formed JSON value (syntax error, empty body);
JSON `null` leaves the zero Product; an object is folded member by member
(later duplicates win, any member error fails the decode); any other
top-level value is a type error. -/
def decodeBody : Option JVal → Except Unit Product
  | none => .error ()
  | some .jnull => .ok Product.zero
  | some (.jobj o) =>
    let r := o.foldl decodeStep (Product.zero, false)
    if r.2 then .error () else .ok r.1
  | some _ => .error ()

/-- First value of a named field of a document (the driver reads the
first occurrence of a duplicated field name). -/
def lookupField (d : BDoc) (k : String) : Option BVal :=
  (d.find? (fun f => f.1 == k)).map (fun f => f.2)

/-- A document matches a query selector when every selector field is
present in the document with a BSON-equal value (same BSON type, same
content). -/
def matchesSel (sel : List (String × BVal)) (d : BDoc) : Bool :=
  sel.all (fun f => lookupField d f.1 == some f.2)

/-- mgo `Find(sel).One`: the first matching document, or ErrNotFound. -/
def findOne (sel : List (String × BVal)) : List BDoc → Except MgoErr BDoc
  | [] => .error .notFound
  | d :: rest => if matchesSel sel d then .ok d else findOne sel rest

/-- mgo `Find(sel).All`: every matching document, in store order. -/
def findAll (sel : List (String × BVal)) (store : List BDoc) : List BDoc :=
  store.filter (fun d => matchesSel sel d)

/-- mgo `Insert`: fails with a duplicate-key error when the new document
carries an `_id` equal to the `_id` of a stored document (MongoDB's
built-in unique index on `_id`; the extra "isbn" index of ensureIndex is
sparse and never populated, so it can never fire), otherwise appends.  -/
def insertDoc (d : BDoc) (store : List BDoc) : Except MgoErr (List BDoc) :=
  match lookupField d "_id" with
  | some v =>
    if store.any (fun e => lookupField e "_id" == some v) then .error .dup
    else .ok (store ++ [d])
  | none => .ok (store ++ [d])

/-- MongoDB assigns a fresh ObjectId to an inserted document that carries
no `_id` (the `omitempty` case); `fresh` is that server-chosen value. -/
def withAssignedId (fresh : String) (d : BDoc) : BDoc :=
  match lookupField d "_id" with
  | some _ => d
  | none => ("_id", BVal.oid fresh) :: d

/-- Replacement semantics of a MongoDB update: `_id` is immutable.  A
replacement carrying no `_id` keeps the matched document's `_id`; one
carrying an `_id` BSON-equal to the matched document's replaces it as-is;
one carrying a different `_id` is rejected by the server (ImmutableField),
which mgo surfaces as a generic error — not ErrNotFound — so the handler
maps it to 500. -/
def replaceDoc (orig newdoc : BDoc) : Except MgoErr BDoc :=
  match lookupField newdoc "_id" with
  | none =>
    match lookupField orig "_id" with
    | some v => .ok (("_id", v) :: newdoc)
    | none => .ok newdoc
  | some v =>
    match lookupField orig "_id" with
    | some w => if v = w then .ok newdoc else .error .queryError
    | none => .ok newdoc

/-- mgo `Update(sel, doc)`: replace the first matching document wholesale
with `newdoc` subject to the immutability of `_id`, or ErrNotFound when
nothing matches. -/
def updateOp (sel : List (String × BVal)) (newdoc : BDoc) :
    List BDoc → Except MgoErr (List BDoc)
  | [] => .error .notFound
  | d :: rest =>
    if matchesSel sel d then
      match replaceDoc d newdoc with
      | .error e => .error e
      | .ok d' => .ok (d' :: rest)
    else
      match updateOp sel newdoc rest with
      | .error e => .error e
      | .ok rest' => .ok (d :: rest')

/-- mgo `Remove(sel)`: remove the first matching document, or
ErrNotFound when nothing matches. -/
def removeOp (sel : List (String × BVal)) :
    List BDoc → Except MgoErr (List BDoc)
  | [] => .error .notFound
  | d :: rest =>
    if matchesSel sel d then .ok rest
    else
      match removeOp sel rest with
      | .error e => .error e
      | .ok rest' => .ok (d :: rest')

/-- bson marshalling of a Product for Insert/Update: `_id` omitted when
empty (`omitempty`), `name` and `price` always present. -/
def productToDoc (p : Product) : BDoc :=
  (if p.id = "" then [] else [("_id", BVal.oid p.id)]) ++
    [("name", BVal.str p.name), ("price", BVal.str p.price)]

/-- bson unmarshalling of a stored document into a Product: a missing
field leaves the zero value; the string-kinded `id` field accepts both an
ObjectId and a BSON string `_id`; unknown document fields are ignored. -/
def docToProduct (d : BDoc) : Product :=
  { id :=
      match lookupField d "_id" with
      | some (.oid s) => s
      | some (.str s) => s
      | none => ""
    name :=
      match lookupField d "name" with
      | some (.str s) => s
      | _ => ""
    price :=
      match lookupField d "price" with
      | some (.str s) => s
      | _ => "" }

/-- Injection point for driver/transport failures: a handler's storage
call either fails with the injected error or runs the pure operation. -/
def runOp (dbErr : Option MgoErr) (op : Except MgoErr α) : Except MgoErr α :=
  match dbErr with
  | some e => .error e
  | none => op

/-- json.MarshalIndent of one Product at nesting prefix `pad` with indent
"  ": fields in struct order; the `id` field is ObjectId.MarshalJSON,
i.e. the quoted lower-case hex of the raw bytes. -/
def marshalProductAt (pad : String) (p : Product) : String :=
  "\x7b\n" ++ pad ++ "  \"id\": \"" ++ hexEncode p.id ++ "\",\n" ++
    pad ++ "  \"name\": " ++ jsonQuote p.name ++ ",\n" ++
    pad ++ "  \"price\": " ++ jsonQuote p.price ++ "\n" ++ pad ++ "\x7d"

/-- json.MarshalIndent of the single Product written by get-by-id. -/
def marshalProduct (p : Product) : String := marshalProductAt "" p

/-- json.MarshalIndent of the `[]Product` slice written by list.  An
empty result leaves the slice nil (mgo `All` never allocates then), and
encoding/json renders a nil slice as the literal `null`, not `[]`. -/
def marshalProducts (ps : List Product) : String :=
  match ps with
  | [] => "null"
  | _ =>
    "[\n  " ++ String.intercalate ",\n  " (ps.map (marshalProductAt "  ")) ++
      "\n]"

/-- ErrorWithJSON (app.go lines 28-32): fixed JSON Content-Type, the
given status code, and the body `fmt.Fprintf "\x7bmessage: %q\x7d"` — the
key is literally unquoted. -/
def errorWithJSON (message : String) (code : Nat) : Response :=
  { status := code
    contentType := some "application/json; charset=utf-8"
    location := none
    body := "\x7bmessage: " ++ goQuote message ++ "\x7d" }

/-- ResponseWithJSON (app.go lines 34-38): fixed JSON Content-Type, the
given status code, the given bytes as body. -/
def responseWithJSON (json : String) (code : Nat) : Response :=
  { status := code
    contentType := some "application/json; charset=utf-8"
    location := none
    body := json }

/-- Error branch of getAllProducts (lines 82-86): any error is 500
"Database error". -/
def findAllErrResponse (_ : MgoErr) : Response :=
  errorWithJSON "Database error" 500

/-- Error branch of getProductById (lines 109-113): any error — including
the driver's not-found — is 500 "Database error". -/
def findOneErrResponse (_ : MgoErr) : Response :=
  errorWithJSON "Database error" 500

/-- Error branch of createProduct (lines 147-156): a duplicate-key error
is 400, anything else 500. -/
def insertErrResponse (e : MgoErr) : Response :=
  if e = .dup then errorWithJSON "Product with this id already exists" 400
  else errorWithJSON "Database error" 500

/-- Error branch of updateProductById (lines 183-193): ErrNotFound is
404, anything else 500. -/
def updateErrResponse (e : MgoErr) : Response :=
  match e with
  | .notFound => errorWithJSON "Product not found" 404
  | _ => errorWithJSON "Database error" 500

/-- Error branch of deleteProductById (lines 210-220): ErrNotFound is
404, anything else 500. -/
def removeErrResponse (e : MgoErr) : Response :=
  match e with
  | .notFound => errorWithJSON "Product not found" 404
  | _ => errorWithJSON "Database error" 500

/-- getAllProducts (lines 73-95): query with the empty selector, marshal
every document, 200. -/
def getAllProductsH (dbErr : Option MgoErr) (store : List BDoc) : Response :=
  match runOp dbErr (.ok (findAll [] store)) with
  | .error e => findAllErrResponse e
  | .ok docs => responseWithJSON (marshalProducts (docs.map docToProduct)) 200

/-- getProductById (lines 98-127): find one document whose `_id` equals
the path parameter as a BSON *string*; any driver error is 500; a found
document whose decoded id is empty is 404; otherwise 200 with the
marshalled document. -/
def getProductByIdH (dbErr : Option MgoErr) (store : List BDoc)
    (id : String) : Response :=
  match runOp dbErr (findOne [("_id", BVal.str id)] store) with
  | .error e => findOneErrResponse e
  | .ok doc =>
    let product := docToProduct doc
    if product.id = "" then errorWithJSON "Product not found" 404
    else responseWithJSON (marshalProduct product) 200

/-- createProduct (lines 130-162): decode the body (400 "Incorrect body"
on failure), insert the marshalled document (the server assigning `fresh`
as `_id` when the body carried none), and on success answer 201 with
Content-Type "application/json" (no charset), Location = URL path + "/" +
the in-handler product id (the raw Go string, empty when
server-generated), and no body. -/
def createProductH (dbErr : Option MgoErr) (fresh : String)
    (body : Option JVal) (urlPath : String) (store : List BDoc) :
    Response × List BDoc :=
  match decodeBody body with
  | .error _ => (errorWithJSON "Incorrect body" 400, store)
  | .ok product =>
    match runOp dbErr (insertDoc (withAssignedId fresh (productToDoc product)) store) with
    | .error e => (insertErrResponse e, store)
    | .ok store' =>
      ({ status := 201
         contentType := some "application/json"
         location := some (urlPath ++ "/" ++ product.id)
         body := "" }, store')

/-- updateProductById (lines 165-197): decode the body (400 "Incorrect
body" on failure), replace the document whose `_id` equals the path
parameter as a BSON string, 204 with no body on success. -/
def updateProductByIdH (dbErr : Option MgoErr) (id : String)
    (body : Option JVal) (store : List BDoc) : Response × List BDoc :=
  match decodeBody body with
  | .error _ => (errorWithJSON "Incorrect body" 400, store)
  | .ok product =>
    match runOp dbErr (updateOp [("_id", BVal.str id)] (productToDoc product) store) with
    | .error e => (updateErrResponse e, store)
    | .ok store' =>
      ({ status := 204, contentType := none, location := none, body := "" },
        store')

/-- deleteProductById (lines 200-224): remove the document whose field
literally named `id` equals the path parameter (note: not `_id`), 204
with no body on success. -/
def deleteProductByIdH (dbErr : Option MgoErr) (id : String)
    (store : List BDoc) : Response × List BDoc :=
  match runOp dbErr (removeOp [("id", BVal.str id)] store) with
  | .error e => (removeErrResponse e, store)
  | .ok store' =>
    ({ status := 204, contentType := none, location := none, body := "" },
      store')

/-- The body of the spec's concrete scenario:
POST `\x7b"name":"Go in Action","price":"35.00"\x7d`. -/
def scenarioBody : Option JVal :=
  some (.jobj [("name", .jstr "Go in Action"), ("price", .jstr "35.00")])

/-- The scenario create against an empty collection, the server choosing
the 12 bytes "aaaaaaaaaaaa" as the generated ObjectId. -/
def scenarioCreate : Response × List BDoc :=
  createProductH none "aaaaaaaaaaaa" scenarioBody "/products" []

/-- The response discipline claimed for every handler response: an error
response (4xx/5xx) has the literal unquoted-key body, and every response
other than 201/204 carries the JSON charset Content-Type. -/
def respOk (r : Response) : Prop :=
  (400 ≤ r.status → ∃ m, r.body = "\x7bmessage: " ++ goQuote m ++ "\x7d") ∧
  (r.status ≠ 201 → r.status ≠ 204 →
    r.contentType = some "application/json; charset=utf-8")

theorem findAll_nilSel (store : List BDoc) : findAll [] store = store := by
  simp [findAll, matchesSel]

theorem insertDoc_ok_eq {d : BDoc} {store store' : List BDoc}
    (h : insertDoc d store = .ok store') : store' = store ++ [d] := by
  unfold insertDoc at h
  split at h
  · split at h
    · simp at h
    · simp at h; exact h.symm
  · simp at h; exact h.symm

theorem updateOp_notFound {sel : List (String × BVal)} {nd : BDoc} :
    ∀ {l : List BDoc}, (∀ d ∈ l, matchesSel sel d = false) →
      updateOp sel nd l = .error .notFound := by
  intro l
  induction l with
  | nil => intro _; rfl
  | cons d rest ih =>
    intro h
    have hd := h d (List.mem_cons_self d rest)
    have hrest : ∀ x ∈ rest, matchesSel sel x = false :=
      fun x hx => h x (List.mem_cons_of_mem d hx)
    simp [updateOp, hd, ih hrest]

theorem updateOp_found {sel : List (String × BVal)} {nd m : BDoc} :
    ∀ {pre : List BDoc} (post : List BDoc),
      (∀ d ∈ pre, matchesSel sel d = false) → matchesSel sel m = true →
      updateOp sel nd (pre ++ m :: post) =
        (match replaceDoc m nd with
         | .error e => .error e
         | .ok d' => .ok (pre ++ d' :: post)) := by
  intro pre
  induction pre with
  | nil =>
    intro post _ hm
    cases hr : replaceDoc m nd with
    | error e => simp [updateOp, hm, hr]
    | ok d' => simp [updateOp, hm, hr]
  | cons d rest ih =>
    intro post h hm
    have hd := h d (List.mem_cons_self d rest)
    have hrest : ∀ x ∈ rest, matchesSel sel x = false :=
      fun x hx => h x (List.mem_cons_of_mem d hx)
    cases hr : replaceDoc m nd with
    | error e =>
      have hih := ih post hrest hm
      rw [hr] at hih
      simp [updateOp, hd, hih, hr]
    | ok d' =>
      have hih := ih post hrest hm
      rw [hr] at hih
      simp [updateOp, hd, hih, hr]

theorem matchesSel_single {k : String} {v : BVal} {d : BDoc}
    (h : matchesSel [(k, v)] d = true) : lookupField d k = some v := by
  simp [matchesSel] at h
  exact h

theorem removeOp_notFound {sel : List (String × BVal)} :
    ∀ {l : List BDoc}, (∀ d ∈ l, matchesSel sel d = false) →
      removeOp sel l = .error .notFound := by
  intro l
  induction l with
  | nil => intro _; rfl
  | cons d rest ih =>
    intro h
    have hd := h d (List.mem_cons_self d rest)
    have hrest : ∀ x ∈ rest, matchesSel sel x = false :=
      fun x hx => h x (List.mem_cons_of_mem d hx)
    simp [removeOp, hd, ih hrest]

theorem removeOp_ok_length {sel : List (String × BVal)} :
    ∀ {l l' : List BDoc}, removeOp sel l = .ok l' →
      l'.length + 1 = l.length := by
  intro l
  induction l with
  | nil => intro l' h; simp [removeOp] at h
  | cons d rest ih =>
    intro l' h
    simp only [removeOp] at h
    split at h
    · simp at h; subst h; rfl
    · cases hr : removeOp sel rest with
      | error e => rw [hr] at h; simp at h
      | ok rest' =>
        rw [hr] at h
        simp at h
        subst h
        have := ih hr
        simp [List.length_cons]
        omega

theorem respOk_errorWithJSON (m : String) (c : Nat) :
    respOk (errorWithJSON m c) :=
  ⟨fun _ => ⟨m, rfl⟩, fun _ _ => rfl⟩

theorem respOk_response200 (j : String) : respOk (responseWithJSON j 200) :=
  ⟨fun h => by simp [responseWithJSON] at h, fun _ _ => rfl⟩

theorem respOk_created (loc : Option String) :
    respOk { status := 201, contentType := some "application/json",
             location := loc, body := "" } :=
  ⟨fun h => by simp at h, fun h _ => (h rfl).elim⟩

theorem respOk_noContent :
    respOk { status := 204, contentType := none, location := none,
             body := "" } :=
  ⟨fun h => by simp at h, fun _ h => (h rfl).elim⟩

theorem respOk_insertErr (e : MgoErr) : respOk (insertErrResponse e) := by
  unfold insertErrResponse
  split
  · exact respOk_errorWithJSON _ _
  · exact respOk_errorWithJSON _ _

theorem respOk_updateErr (e : MgoErr) : respOk (updateErrResponse e) := by
  cases e <;> exact respOk_errorWithJSON _ _

theorem respOk_removeErr (e : MgoErr) : respOk (removeErrResponse e) := by
  cases e <;> exact respOk_errorWithJSON _ _

theorem respOk_getAll (dbErr : Option MgoErr) (store : List BDoc) :
    respOk (getAllProductsH dbErr store) := by
  unfold getAllProductsH
  cases hr : runOp dbErr (Except.ok (findAll [] store)) with
  | error e => exact respOk_errorWithJSON _ _
  | ok docs => exact respOk_response200 _

theorem respOk_getById (dbErr : Option MgoErr) (store : List BDoc)
    (id : String) : respOk (getProductByIdH dbErr store id) := by
  unfold getProductByIdH
  cases hr : runOp dbErr (findOne [("_id", BVal.str id)] store) with
  | error e => exact respOk_errorWithJSON _ _
  | ok doc =>
    dsimp only
    split
    · exact respOk_errorWithJSON _ _
    · exact respOk_response200 _

theorem respOk_create (dbErr : Option MgoErr) (fresh : String)
    (body : Option JVal) (urlPath : String) (store : List BDoc) :
    respOk (createProductH dbErr fresh body urlPath store).1 := by
  unfold createProductH
  cases hdec : decodeBody body with
  | error u => exact respOk_errorWithJSON _ _
  | ok p =>
    dsimp only
    cases hr : runOp dbErr (insertDoc (withAssignedId fresh (productToDoc p)) store) with
    | error e => exact respOk_insertErr e
    | ok store' => exact respOk_created _

theorem respOk_update (dbErr : Option MgoErr) (id : String)
    (body : Option JVal) (store : List BDoc) :
    respOk (updateProductByIdH dbErr id body store).1 := by
  unfold updateProductByIdH
  cases hdec : decodeBody body with
  | error u => exact respOk_errorWithJSON _ _
  | ok p =>
    dsimp only
    cases hr : runOp dbErr (updateOp [("_id", BVal.str id)] (productToDoc p) store) with
    | error e => exact respOk_updateErr e
    | ok store' => exact respOk_noContent

theorem respOk_delete (dbErr : Option MgoErr) (id : String)
    (store : List BDoc) :
    respOk (deleteProductByIdH dbErr id store).1 := by
  unfold deleteProductByIdH
  cases hr : runOp dbErr (removeOp [("id", BVal.str id)] store) with
  | error e => exact respOk_removeErr e
  | ok store' => exact respOk_noContent

theorem decodeStep_skip {k : String} (v : JVal)
    (hid : eqFold k "id" = false) (hname : eqFold k "name" = false)
    (hprice : eqFold k "price" = false) (acc : Product × Bool) :
    decodeStep acc (k, v) = acc := by
  simp only [decodeStep, hid, hname, hprice]
  rfl

theorem decodeBody_skip_unknown {k : String} (v : JVal)
    (pre post : List (String × JVal))
    (hid : eqFold k "id" = false) (hname : eqFold k "name" = false)
    (hprice : eqFold k "price" = false) :
    decodeBody (some (.jobj (pre ++ (k, v) :: post))) =
      decodeBody (some (.jobj (pre ++ post))) := by
  have hfold : ∀ init : Product × Bool,
      (pre ++ (k, v) :: post).foldl decodeStep init =
        (pre ++ post).foldl decodeStep init := by
    intro init
    rw [List.foldl_append, List.foldl_append, List.foldl_cons,
      decodeStep_skip v hid hname hprice]
  simp only [decodeBody, hfold]

/-- C1: the claim says create(P) followed by get on P's identifier returns
200 with the document; the code violates it.  After the scenario POST
(201, with an empty generated-id suffix in Location), a GET on ANY id —
including the server-assigned one, in hex or raw form — answers 500: the
stored `_id` is an ObjectId while the handler queries it against the path
parameter as a BSON string, so the driver reports not-found, which this
handler maps to "Database error"/500. -/
theorem c1_create_then_get_diverges :
    (scenarioCreate.1.status = 201 ∧
      scenarioCreate.1.location = some "/products/") ∧
    ∀ id, (getProductByIdH none scenarioCreate.2 id).status = 500 :=
  ⟨⟨rfl, rfl⟩, fun _ => rfl⟩

/-- C2 counterexample: with an empty collection (no document matches the
id "a"), the claim demands 404, but get-by-id answers 500 "Database
error", because the driver's not-found is handled as a generic error. -/
theorem c2_counterexample :
    (getProductByIdH none [] "a").status = 500 ∧
    (getProductByIdH none [] "a").status ≠ 404 ∧
    (getProductByIdH none [] "a").body =
      "\x7bmessage: \"Database error\"\x7d" :=
  ⟨rfl, by decide, rfl⟩

/-- C2 amended: get-by-id answers 200 with the marshalled document when
one matches the id (as a BSON string) and its decoded identifier is
nonempty; 404 "Product not found" only when a matching document's
identifier decodes to empty; and 500 "Database error" both on a
driver/transport error and when no document matches (the driver's
not-found error). -/
theorem c2_get_characterization (store : List BDoc) (id : String) :
    (findOne [("_id", BVal.str id)] store = .error .notFound →
      getProductByIdH none store id = errorWithJSON "Database error" 500) ∧
    (∀ doc, findOne [("_id", BVal.str id)] store = .ok doc →
      ((docToProduct doc).id = "" →
        getProductByIdH none store id =
          errorWithJSON "Product not found" 404) ∧
      ((docToProduct doc).id ≠ "" →
        getProductByIdH none store id =
          responseWithJSON (marshalProduct (docToProduct doc)) 200)) ∧
    (∀ e, getProductByIdH (some e) store id =
      errorWithJSON "Database error" 500) := by
  refine ⟨?_, ?_, ?_⟩
  · intro h
    unfold getProductByIdH
    rw [show runOp none (findOne [("_id", BVal.str id)] store) =
          findOne [("_id", BVal.str id)] store from rfl, h]
    rfl
  · intro doc h
    constructor
    · intro hempty
      unfold getProductByIdH
      rw [show runOp none (findOne [("_id", BVal.str id)] store) =
            findOne [("_id", BVal.str id)] store from rfl, h]
      simp [hempty]
    · intro hne
      unfold getProductByIdH
      rw [show runOp none (findOne [("_id", BVal.str id)] store) =
            findOne [("_id", BVal.str id)] store from rfl, h]
      simp [hne]
  · intro e
    rfl

/-- C2 witness: the 500 branch at the empty store, and the 200 branch at
a handmade document whose `_id` is the BSON string "a". -/
theorem c2_witness :
    getProductByIdH none [] "a" = errorWithJSON "Database error" 500 ∧
    getProductByIdH none [[("_id", BVal.str "a")]] "a" =
      responseWithJSON (marshalProduct (docToProduct [("_id", BVal.str "a")]))
        200 :=
  ⟨(c2_get_characterization [] "a").1 (by decide),
    ((c2_get_characterization [[("_id", BVal.str "a")]] "a").2.1
        [("_id", BVal.str "a")] (by decide)).2 (by decide)⟩

/-- C3: the claim says delete removes the document whose identifier
equals the path parameter and that delete-then-get answers 404; the code
violates it.  On the collection produced by the scenario create, delete
answers 404 for EVERY id and removes nothing: it queries a field
literally named "id" while the stored identifier lives in `_id`.  The
subsequent get answers 500, not 404. -/
theorem c3_delete_never_matches :
    ∀ id, deleteProductByIdH none id scenarioCreate.2 =
        (errorWithJSON "Product not found" 404, scenarioCreate.2) ∧
      (getProductByIdH none (deleteProductByIdH none id scenarioCreate.2).2
          id).status = 500 :=
  fun _ => ⟨rfl, rfl⟩

/-- C4: the uniform error policy.  Under any storage-layer error `e`,
list and get-by-id answer 500 "Database error"; create answers 400
"Product with this id already exists" exactly on a duplicate-key error
and 500 "Database error" otherwise; update and delete answer 404 exactly
on the driver's not-found and 500 "Database error" otherwise; no handler
mutates the store on an error. -/
theorem c4_error_policy (e : MgoErr) (store : List BDoc)
    (id fresh urlPath : String) (body : Option JVal) (p : Product)
    (hdec : decodeBody body = .ok p) :
    getAllProductsH (some e) store = errorWithJSON "Database error" 500 ∧
    getProductByIdH (some e) store id = errorWithJSON "Database error" 500 ∧
    createProductH (some e) fresh body urlPath store =
      ((if e = .dup then
          errorWithJSON "Product with this id already exists" 400
        else errorWithJSON "Database error" 500), store) ∧
    updateProductByIdH (some e) id body store =
      ((if e = .notFound then errorWithJSON "Product not found" 404
        else errorWithJSON "Database error" 500), store) ∧
    deleteProductByIdH (some e) id store =
      ((if e = .notFound then errorWithJSON "Product not found" 404
        else errorWithJSON "Database error" 500), store) := by
    refine ⟨rfl, rfl, ?_, ?_, ?_⟩
    · cases e <;> simp [createProductH, hdec, runOp, insertErrResponse]
    · cases e <;> simp [updateProductByIdH, hdec, runOp, updateErrResponse]
    · cases e <;> simp [deleteProductByIdH, runOp, removeErrResponse]

/-- C4 witness: the duplicate-key branch of create and the not-found
branch of delete, at concrete inputs. -/
theorem c4_witness :
    createProductH (some .dup) "aaaaaaaaaaaa" scenarioBody "/products" [] =
      (errorWithJSON "Product with this id already exists" 400, []) ∧
    deleteProductByIdH (some .notFound) "a" [] =
      (errorWithJSON "Product not found" 404, []) := by
  have h := c4_error_policy .dup [] "a" "aaaaaaaaaaaa" "/products"
    scenarioBody { id := "", name := "Go in Action", price := "35.00" }
    (by decide)
  have h2 := c4_error_policy .notFound [] "a" "aaaaaaaaaaaa" "/products"
    scenarioBody { id := "", name := "Go in Action", price := "35.00" }
    (by decide)
  exact ⟨h.2.2.1, h2.2.2.2.2⟩

/-- C5 counterexample: a matching document exists (string `_id` "a") and
the replacement body is valid and carries an id, yet update answers 500,
not 204, and replaces nothing: the marshalled replacement's ObjectId
`_id` differs from the matched document's string `_id`, and MongoDB
rejects altering the immutable `_id` — mgo surfaces a generic error,
mapped to "Database error"/500.  This refutes the claim's "when a
document matches, update replaces it wholesale with P' and returns
HTTP 204" on an id-bearing P'. -/
theorem c5_counterexample :
    updateProductByIdH none "a"
        (some (.jobj [("id", .jstr "4d88e15b60f486e428412dc9"),
          ("name", .jstr "Go in Action"), ("price", .jstr "35.00")]))
        [[("_id", BVal.str "a")]] =
      (errorWithJSON "Database error" 500, [[("_id", BVal.str "a")]]) ∧
    (updateProductByIdH none "a"
        (some (.jobj [("id", .jstr "4d88e15b60f486e428412dc9"),
          ("name", .jstr "Go in Action"), ("price", .jstr "35.00")]))
        [[("_id", BVal.str "a")]]).1.status ≠ 204 :=
  ⟨rfl, by decide⟩

/-- C5 amended: update with a decodable body answers 404 and leaves the
collection untouched when no stored document's `_id` matches the path
parameter (as a BSON string) — in particular it creates nothing.  When a
document does match, the replacement is subject to MongoDB's immutable
`_id`: a body carrying no identifier replaces the matched document
wholesale (keeping its stored `_id`) and the handler answers 204 with no
body and no Content-Type; a body carrying a nonempty identifier marshals
to an ObjectId `_id` that can never BSON-equal the matched string `_id`,
so the driver rejects the replacement and the handler answers 500
"Database error" with the collection unchanged. -/
theorem c5_update_behaviour (id : String) (body : Option JVal)
    (p : Product) (store pre post : List BDoc) (m : BDoc)
    (hdec : decodeBody body = .ok p) :
    ((∀ d ∈ store, matchesSel [("_id", BVal.str id)] d = false) →
      updateProductByIdH none id body store =
        (errorWithJSON "Product not found" 404, store)) ∧
    ((∀ d ∈ pre, matchesSel [("_id", BVal.str id)] d = false) →
      matchesSel [("_id", BVal.str id)] m = true →
      (p.id = "" →
        updateProductByIdH none id body (pre ++ m :: post) =
          ({ status := 204, contentType := none, location := none,
              body := "" },
            pre ++ (("_id", BVal.str id) :: productToDoc p) :: post)) ∧
      (p.id ≠ "" →
        updateProductByIdH none id body (pre ++ m :: post) =
          (errorWithJSON "Database error" 500, pre ++ m :: post))) := by
  constructor
  · intro h
    simp [updateProductByIdH, hdec, runOp, updateOp_notFound h,
      updateErrResponse]
  · intro hpre hm
    have hid : lookupField m "_id" = some (BVal.str id) := matchesSel_single hm
    constructor
    · intro hpid
      have h1 : productToDoc p =
          [("name", BVal.str p.name), ("price", BVal.str p.price)] := by
        rw [productToDoc, if_pos hpid]
        rfl
      have h2 : lookupField (productToDoc p) "_id" = none := by
        rw [h1]
        rfl
      have hrep : replaceDoc m (productToDoc p) =
          .ok (("_id", BVal.str id) :: productToDoc p) := by
        simp [replaceDoc, h2, hid]
      simp [updateProductByIdH, hdec, runOp, updateOp_found post hpre hm,
        hrep]
    · intro hpid
      have h1 : productToDoc p = ("_id", BVal.oid p.id) ::
          [("name", BVal.str p.name), ("price", BVal.str p.price)] := by
        rw [productToDoc, if_neg hpid]
        rfl
      have h2 : lookupField (productToDoc p) "_id" =
          some (BVal.oid p.id) := by
        rw [h1]
        rfl
      have hrep : replaceDoc m (productToDoc p) = .error .queryError := by
        simp [replaceDoc, h2, hid]
      simp [updateProductByIdH, hdec, runOp, updateOp_found post hpre hm,
        hrep, updateErrResponse]

/-- C5 witness: the 404 branch at the empty store, the 204 replacement
branch for a body with no id, and the 500 immutable-id branch for a body
carrying one, each at a store holding one matching document. -/
theorem c5_witness :
    updateProductByIdH none "a" scenarioBody [] =
      (errorWithJSON "Product not found" 404, []) ∧
    updateProductByIdH none "a" scenarioBody [[("_id", BVal.str "a")]] =
      ({ status := 204, contentType := none, location := none, body := "" },
        [("_id", BVal.str "a") ::
          productToDoc { id := "", name := "Go in Action",
                         price := "35.00" }]) ∧
    updateProductByIdH none "a"
        (some (.jobj [("id", .jstr "4d88e15b60f486e428412dc9"),
          ("name", .jstr "n"), ("price", .jstr "p")]))
        [[("_id", BVal.str "a")]] =
      (errorWithJSON "Database error" 500, [[("_id", BVal.str "a")]]) := by
  have h := c5_update_behaviour "a" scenarioBody
    { id := "", name := "Go in Action", price := "35.00" }
    [] [] [] [("_id", BVal.str "a")] (by decide)
  have h2 := c5_update_behaviour "a"
    (some (.jobj [("id", .jstr "4d88e15b60f486e428412dc9"),
      ("name", .jstr "n"), ("price", .jstr "p")]))
    { id := "M\x88\xe1[`\xf4\x86\xe4(A-\xc9", name := "n", price := "p" }
    [] [] [] [("_id", BVal.str "a")] (by decide)
  exact ⟨h.1 (by decide), (h.2 (by decide) (by decide)).1 rfl,
    (h2.2 (by decide) (by decide)).2 (by decide)⟩

/-- C6: a body that does not decode into a Product makes create and
update answer 400 "Incorrect body" and leave the collection exactly as it
was, regardless of any storage behaviour. -/
theorem c6_bad_body (dbErr : Option MgoErr) (fresh urlPath id : String)
    (body : Option JVal) (store : List BDoc)
    (hdec : decodeBody body = .error ()) :
    createProductH dbErr fresh body urlPath store =
      (errorWithJSON "Incorrect body" 400, store) ∧
    updateProductByIdH dbErr id body store =
      (errorWithJSON "Incorrect body" 400, store) := by
  constructor
  · simp [createProductH, hdec]
  · simp [updateProductByIdH, hdec]

/-- C6 witness: a top-level JSON string is not a Product document. -/
theorem c6_witness :
    createProductH none "aaaaaaaaaaaa" (some (.jstr "x")) "/products" [] =
      (errorWithJSON "Incorrect body" 400, []) ∧
    updateProductByIdH none "a" (some (.jstr "x")) [] =
      (errorWithJSON "Incorrect body" 400, []) :=
  c6_bad_body none "aaaaaaaaaaaa" "/products" "a" (some (.jstr "x")) []
    (by decide)

/-- C7: a successful create inserts exactly the decoded document (with
the server-assigned identifier when the body carried none) at the end of
the collection and answers 201 with an empty body and a Location header
equal to the request path plus "/" plus the in-handler identifier — the
empty string whenever the identifier was left to the server. -/
theorem c7_create_success (fresh urlPath : String) (body : Option JVal)
    (p : Product) (store store' : List BDoc)
    (hdec : decodeBody body = .ok p)
    (hins : insertDoc (withAssignedId fresh (productToDoc p)) store =
      .ok store') :
    createProductH none fresh body urlPath store =
      ({ status := 201, contentType := some "application/json",
          location := some (urlPath ++ "/" ++ p.id), body := "" },
        store') ∧
    store' = store ++ [withAssignedId fresh (productToDoc p)] := by
  constructor
  · simp [createProductH, hdec, runOp, hins]
  · exact insertDoc_ok_eq hins

/-- C7 witness: the scenario POST against the empty collection. -/
theorem c7_witness :
    createProductH none "aaaaaaaaaaaa" scenarioBody "/products" [] =
      ({ status := 201, contentType := some "application/json",
          location := some "/products/", body := "" },
        [withAssignedId "aaaaaaaaaaaa"
          (productToDoc { id := "", name := "Go in Action",
                          price := "35.00" })]) := by
  have h := c7_create_success "aaaaaaaaaaaa" "/products" scenarioBody
    { id := "", name := "Go in Action", price := "35.00" }
    [] [withAssignedId "aaaaaaaaaaaa"
      (productToDoc { id := "", name := "Go in Action", price := "35.00" })]
    (by decide) (by decide)
  simpa using h.1

/-- C8 counterexample: on the empty collection the claim demands a JSON
array of the (zero) stored documents, i.e. the body "[]", but list
answers with the literal body "null": the result slice stays nil and
encoding/json renders a nil slice as null. -/
theorem c8_counterexample :
    getAllProductsH none [] =
      { status := 200, contentType := some "application/json; charset=utf-8",
        location := none, body := "null" } ∧
    (getAllProductsH none []).body ≠ "[]" :=
  ⟨rfl, by decide⟩

/-- C8 amended: list answers 200 with the indented JSON marshalling of
exactly the stored documents in store order — a JSON array whenever the
collection is nonempty, the literal null when it is empty — with one
array element per stored document; each successful create grows the
collection by one document and each successful delete shrinks it by one,
so the cardinality equals the number of successful un-deleted creates. -/
theorem c8_list_characterization (store : List BDoc) :
    getAllProductsH none store =
      responseWithJSON (marshalProducts (store.map docToProduct)) 200 ∧
    (store.map docToProduct).length = store.length ∧
    (store = [] → (getAllProductsH none store).body = "null") ∧
    (store ≠ [] → ∃ rest, (getAllProductsH none store).body =
      "[\n  " ++ rest) ∧
    (∀ d store', insertDoc d store = .ok store' →
      store'.length = store.length + 1) ∧
    (∀ sel store', removeOp sel store = .ok store' →
      store'.length + 1 = store.length) := by
  have hall : getAllProductsH none store =
      responseWithJSON (marshalProducts (store.map docToProduct)) 200 := by
    simp [getAllProductsH, runOp, findAll_nilSel]
  refine ⟨hall, by simp, ?_, ?_, ?_, ?_⟩
  · intro h
    subst h
    rfl
  · intro h
    rw [hall]
    cases store with
    | nil => exact absurd rfl h
    | cons d rest =>
      exact ⟨String.intercalate ",\n  "
          ((docToProduct d :: rest.map docToProduct).map
            (marshalProductAt "  ")) ++ "\n]", rfl⟩
  · intro d store' h
    rw [insertDoc_ok_eq h]
    simp
  · intro sel store' h
    exact removeOp_ok_length h

/-- C8 witness: the nonempty-collection branch and the create/delete
cardinality effects at concrete stores. -/
theorem c8_witness :
    (∃ rest, (getAllProductsH none [[("_id", BVal.str "a")]]).body =
      "[\n  " ++ rest) ∧
    (∀ store', insertDoc [("_id", BVal.oid "b")] [[("_id", BVal.str "a")]] =
        .ok store' → store'.length = 2) ∧
    (getAllProductsH none []).body = "null" := by
  have h := c8_list_characterization [[("_id", BVal.str "a")]]
  have h0 := c8_list_characterization []
  exact ⟨h.2.2.2.1 (by decide),
    fun store' hs => h.2.2.2.2.1 [("_id", BVal.oid "b")] store' hs,
    h0.2.2.1 rfl⟩

/-- C9: every response any handler can produce obeys the shape
discipline: an error (4xx/5xx) response's body is literally
"\x7bmessage: <Go-quoted text>\x7d" with the key unquoted, and every
response whose status is neither 201 nor 204 carries the header
Content-Type: application/json; charset=utf-8. -/
theorem c9_error_shape_and_content_type (dbErr : Option MgoErr)
    (fresh urlPath id : String) (body : Option JVal) (store : List BDoc) :
    respOk (getAllProductsH dbErr store) ∧
    respOk (getProductByIdH dbErr store id) ∧
    respOk (createProductH dbErr fresh body urlPath store).1 ∧
    respOk (updateProductByIdH dbErr id body store).1 ∧
    respOk (deleteProductByIdH dbErr id store).1 :=
  ⟨respOk_getAll dbErr store, respOk_getById dbErr store id,
    respOk_create dbErr fresh body urlPath store,
    respOk_update dbErr id body store, respOk_delete dbErr id store⟩

/-- C9 witness: the Content-Type and body shape of a concrete 500
response, extracted through the theorem. -/
theorem c9_witness :
    (getProductByIdH none [] "a").contentType =
      some "application/json; charset=utf-8" ∧
    ∃ m, (getProductByIdH none [] "a").body =
      "\x7bmessage: " ++ goQuote m ++ "\x7d" :=
  ⟨((c9_error_shape_and_content_type none "" "/products" "a" none
        []).2.1).2 (by decide) (by decide),
    ((c9_error_shape_and_content_type none "" "/products" "a" none
        []).2.1).1 (by decide)⟩

/-- C10 counterexample: the key "NAME" is none of id, name, price, yet it
is not silently discarded — encoding/json matches it to the `name` field
case-insensitively, so its numeric value is a decode error and create
answers 400 instead of succeeding. -/
theorem c10_counterexample :
    decodeBody (some (.jobj [("name", .jstr "x"), ("price", .jstr "y"),
      ("NAME", .jnum 7)])) = .error () ∧
    createProductH none "aaaaaaaaaaaa"
        (some (.jobj [("name", .jstr "x"), ("price", .jstr "y"),
          ("NAME", .jnum 7)])) "/products" [] =
      (errorWithJSON "Incorrect body" 400, []) :=
  ⟨rfl, rfl⟩

/-- C10 amended: only body fields whose names case-insensitively match
id, name or price are decoded; a field whose name matches none of them is
silently discarded wherever it appears — the decode result and the full
create and update behaviour are the same as if the field were absent, so
it is never stored and the request's outcome is unchanged.  (A field that
matches only up to case, such as "NAME", is decoded into the
corresponding field rather than discarded.) -/
theorem c10_unknown_fields_ignored (k : String) (v : JVal)
    (pre post : List (String × JVal)) (dbErr : Option MgoErr)
    (fresh urlPath id : String) (store : List BDoc)
    (hid : eqFold k "id" = false) (hname : eqFold k "name" = false)
    (hprice : eqFold k "price" = false) :
    decodeBody (some (.jobj (pre ++ (k, v) :: post))) =
      decodeBody (some (.jobj (pre ++ post))) ∧
    createProductH dbErr fresh (some (.jobj (pre ++ (k, v) :: post)))
        urlPath store =
      createProductH dbErr fresh (some (.jobj (pre ++ post)))
        urlPath store ∧
    updateProductByIdH dbErr id (some (.jobj (pre ++ (k, v) :: post)))
        store =
      updateProductByIdH dbErr id (some (.jobj (pre ++ post))) store := by
  have hdec := decodeBody_skip_unknown v pre post hid hname hprice
  refine ⟨hdec, ?_, ?_⟩
  · simp only [createProductH, hdec]
  · simp only [updateProductByIdH, hdec]

/-- C10 witness: a "category" field is discarded, the request behaving as
if it were absent. -/
theorem c10_witness :
    createProductH none "aaaaaaaaaaaa"
        (some (.jobj [("name", .jstr "Go in Action"),
          ("category", .jstr "books"), ("price", .jstr "35.00")]))
        "/products" [] =
      createProductH none "aaaaaaaaaaaa"
        (some (.jobj [("name", .jstr "Go in Action"),
          ("price", .jstr "35.00")])) "/products" [] :=
  (c10_unknown_fields_ignored "category" (.jstr "books")
      [("name", .jstr "Go in Action")] [("price", .jstr "35.00")]
      none "aaaaaaaaaaaa" "/products" "a" []
      (by decide) (by decide) (by decide)).2.1

end RestApi
